import Mathlib

/-!
# Shallow embedding of the poll & vote service of `alx-polly`

Source: `src/app/lib/actions/auth-actions.ts`.  The file contains two copies
of the poll actions (a documented copy and an undocumented copy); they are
textually identical except for `updatePoll`, where the first copy ignores the
error of the store update call and the second copy propagates it.  We embed
the first copy as the default definitions and the second copy's `updatePoll`
as `updatePoll_v2`.

Modelling decisions:
* The external data store is a pair of lists (`polls`, `votes`); a supabase
  insert appends a row, `update ... eq(...)` maps over matching rows, and
  `.single()` succeeds exactly when the filtered selection has exactly one row
  (supabase `.single()` errors on zero rows and on multiple rows).
* The identity provider's `getUser()` is an `Option String` argument
  (`none` = no authenticated user).
* Row identifiers are strings (UUIDs in the source); freshly generated ids
  are passed in as arguments.
* `created_at` timestamps are `Nat` arguments; the `updated_at` column is
  maintained by a database trigger (external store behaviour, not service
  code) and is not part of the embedding.
* JavaScript `String.prototype.trim` is modelled by `jsTrim` below;
  `string.length` (UTF-16 code units) by `String.length` (characters) —
  the difference is a character-set detail irrelevant to the claims.
* `formData.getAll("options").filter(Boolean)` drops exactly the empty
  strings from the raw options list.
* `optionIndex` and the stored `option_index` are `Int` (JS numbers may be
  negative, and out-of-range values may be stored).
-/

/-- A row of the `polls` table, as written by the service. -/
structure Poll where
  id : String
  title : String
  options : List String
  created_by : String
  is_active : Bool
  created_at : Nat
deriving Repr, DecidableEq

/-- A row of the `votes` table, as written by the service. -/
structure Vote where
  id : String
  poll_id : String
  user_id : Option String
  option_index : Int
deriving Repr, DecidableEq

/-- The external data store: the two tables the poll/vote service touches. -/
structure DB where
  polls : List Poll
  votes : List Vote
deriving Repr, DecidableEq

/-- Supabase `.single()`: succeeds iff the selection has exactly one row
(errors on zero rows and on multiple rows, returning `data = null`). -/
def selectSingle {α : Type} : List α → Option α
  | [a] => some a
  | _ => none

/-- JavaScript `String.prototype.trim`: drop leading and trailing whitespace.
Defined over the character list so that it evaluates in the kernel (the
builtin trim of Lean strings does not reduce definitionally). -/
def jsTrim (s : String) : String :=
  String.mk (((s.data.dropWhile Char.isWhitespace).reverse.dropWhile
    Char.isWhitespace).reverse)

/-- `[...new Set(xs)]` in JavaScript: deduplication keeping the first
occurrence of each element, in first-seen order.  `seen` accumulates the
elements already emitted. -/
def jsSetDedup (seen : List String) : List String → List String
  | [] => []
  | x :: xs => if x ∈ seen then jsSetDedup seen xs else x :: jsSetDedup (x :: seen) xs

/-- The per-option validation loop shared by `createPoll`/`updatePoll`
(`for (let i = 0; i < options.length; i++) { ... }`), started at index `i`.
Returns the first error message, or `none` when every option is fine. -/
def validateOptions : List String → Nat → Option String
  | [], _ => none
  | o :: rest, i =>
    let option := jsTrim o
    if option.length = 0 then
      some ("Option " ++ toString (i + 1) ++ " cannot be empty.")
    else if option.length > 200 then
      some ("Option " ++ toString (i + 1) ++ " is too long. Maximum 200 characters allowed.")
    else validateOptions rest (i + 1)

/-- The input-validation block that opens both `createPoll` and `updatePoll`
(the source inlines this block verbatim in both functions; we factor it once).
`options` is the list after `filter(Boolean)`.  Returns the error message of
the first failing check, or `none` when validation passes. -/
def validatePollInput (question : String) (options : List String) : Option String :=
  if (jsTrim question).length = 0 then
    some "Question is required."
  else if question.length > 500 then
    some "Question is too long. Maximum 500 characters allowed."
  else if options.length < 2 then
    some "Please provide at least two options."
  else if options.length > 10 then
    some "Too many options. Maximum 10 options allowed."
  else
    match validateOptions options 0 with
    | some e => some e
    | none =>
      let uniqueOptions := jsSetDedup [] (options.map jsTrim)
      if uniqueOptions.length ≠ options.length then
        some "Duplicate options are not allowed."
      else none

/-- `createPoll` (first copy, lines 192–259).  `user` is the identity
provider's current user; `freshId`/`now` are the id and timestamp the store
assigns to the inserted row.  Returns the `{ error }` field and the
post-state. -/
def createPoll (db : DB) (user : Option String) (question : String)
    (rawOptions : List String) (freshId : String) (now : Nat) :
    Option String × DB :=
  let options := rawOptions.filter (fun s => s ≠ "")
  match validatePollInput question options with
  | some e => (some e, db)
  | none =>
    match user with
    | none => (some "You must be logged in to create a poll.", db)
    | some uid =>
      let uniqueOptions := jsSetDedup [] (options.map jsTrim)
      (none,
        { db with
            polls := db.polls ++
              [{ id := freshId, title := jsTrim question, options := uniqueOptions,
                 created_by := uid, is_active := true, created_at := now }] })

/-- Descending insertion by `created_at` (newest first), used to model
`.order("created_at", { ascending: false })`. -/
def insertByCreatedAtDesc (p : Poll) : List Poll → List Poll
  | [] => [p]
  | q :: rest =>
    if q.created_at ≤ p.created_at then p :: q :: rest
    else q :: insertByCreatedAtDesc p rest

/-- Sort a poll selection by `created_at` descending (newest first). -/
def orderByCreatedAtDesc : List Poll → List Poll
  | [] => []
  | p :: rest => insertByCreatedAtDesc p (orderByCreatedAtDesc rest)

/-- `getUserPolls` (lines 281–297): active polls of the current user, newest
first; with no authenticated user it returns `[]` together with the error
string `"Not authenticated"`. -/
def getUserPolls (db : DB) (user : Option String) : List Poll × Option String :=
  match user with
  | none => ([], some "Not authenticated")
  | some uid =>
    let data := orderByCreatedAtDesc
      (db.polls.filter (fun p => p.created_by == uid && p.is_active))
    (data, none)

/-- `getPollById` (lines 319–330): single active poll by id; the store's
`.single()` error message is passed through opaquely, modelled by the
constant `"Row not found"`. -/
def getPollById (db : DB) (id : String) : Option Poll × Option String :=
  match selectSingle (db.polls.filter (fun p => p.id == id && p.is_active)) with
  | some data => (some data, none)
  | none => (none, some "Row not found")

/-- `submitVote` (lines 355–400).  `freshVoteId` is the id the store assigns
to the inserted vote row.  Returns the `{ error }` field and the post-state. -/
def submitVote (db : DB) (user : Option String) (pollId : String)
    (optionIndex : Int) (freshVoteId : String) : Option String × DB :=
  match selectSingle (db.polls.filter (fun p => p.id == pollId)) with
  | none => (some "Poll not found", db)
  | some poll =>
    if optionIndex < 0 ∨ (poll.options.length : Int) ≤ optionIndex then
      (some "Invalid option selected", db)
    else
      let existingVote : Option Vote :=
        match user with
        | some uid =>
          selectSingle (db.votes.filter
            (fun v => v.poll_id == pollId && v.user_id == some uid))
        | none => none
      match existingVote with
      | some _ => (some "You have already voted on this poll", db)
      | none =>
        (none,
          { db with
              votes := db.votes ++
                [{ id := freshVoteId, poll_id := pollId, user_id := user,
                   option_index := optionIndex }] })

/-- `deletePoll` (lines 424–463): ownership-gated soft delete
(`update({ is_active: false }).eq("id", id).eq("created_by", user.id)`). -/
def deletePoll (db : DB) (user : Option String) (id : String) :
    Option String × DB :=
  match user with
  | none => (some "Authentication required", db)
  | some uid =>
    match selectSingle (db.polls.filter (fun p => p.id == id && p.is_active)) with
    | none => (some "Poll not found", db)
    | some poll =>
      if poll.created_by ≠ uid then
        (some "Unauthorized: You can only delete your own polls", db)
      else
        (none,
          { db with
              polls := db.polls.map (fun p =>
                if p.id == id && p.created_by == uid then
                  { p with is_active := false }
                else p) })

/-- `updatePoll`, first copy (lines 491–567).  `storeFail` is the error the
store's `update` call reports (`none` = the write succeeds).  In this copy
the bound `error` of the update call is never inspected: the function returns
`{ error: null }` unconditionally once validation and ownership pass. -/
def updatePoll (db : DB) (user : Option String) (pollId : String)
    (question : String) (rawOptions : List String) (storeFail : Option String) :
    Option String × DB :=
  let options := rawOptions.filter (fun s => s ≠ "")
  match validatePollInput question options with
  | some e => (some e, db)
  | none =>
    match user with
    | none => (some "You must be logged in to update a poll.", db)
    | some uid =>
      match selectSingle (db.polls.filter (fun p => p.id == pollId && p.is_active)) with
      | none => (some "Poll not found", db)
      | some poll =>
        if poll.created_by ≠ uid then
          (some "Unauthorized: You can only update your own polls", db)
        else
          let uniqueOptions := jsSetDedup [] (options.map jsTrim)
          match storeFail with
          | some _ => (none, db)
          | none =>
            (none,
              { db with
                  polls := db.polls.map (fun p =>
                    if p.id == pollId && p.created_by == uid then
                      { p with title := jsTrim question, options := uniqueOptions }
                    else p) })

/-- `updatePoll`, second copy (lines 813–893): identical to the first copy
except that the error of the store update call is propagated
(`if (error) return { error: error.message }`). -/
def updatePoll_v2 (db : DB) (user : Option String) (pollId : String)
    (question : String) (rawOptions : List String) (storeFail : Option String) :
    Option String × DB :=
  let options := rawOptions.filter (fun s => s ≠ "")
  match validatePollInput question options with
  | some e => (some e, db)
  | none =>
    match user with
    | none => (some "You must be logged in to update a poll.", db)
    | some uid =>
      match selectSingle (db.polls.filter (fun p => p.id == pollId && p.is_active)) with
      | none => (some "Poll not found", db)
      | some poll =>
        if poll.created_by ≠ uid then
          (some "Unauthorized: You can only update your own polls", db)
        else
          let uniqueOptions := jsSetDedup [] (options.map jsTrim)
          match storeFail with
          | some e => (some e, db)
          | none =>
            (none,
              { db with
                  polls := db.polls.map (fun p =>
                    if p.id == pollId && p.created_by == uid then
                      { p with title := jsTrim question, options := uniqueOptions }
                    else p) })

/-- `getVoteCounts` (lines 591–613).  The reduce starts from the empty
accumulator and only increments `counts[index]` when
`index >= 0 && index < counts.length`; `(counts[index] || 0) + 1` is the
JS guard against holes.  Returns `(voteCounts, totalVotes)`. -/
def getVoteCounts (db : DB) (pollId : String) : List Nat × Nat :=
  let votes := db.votes.filter (fun v => v.poll_id == pollId)
  let voteCounts := votes.foldl
    (fun (counts : List Nat) (vote : Vote) =>
      let index := vote.option_index
      if 0 ≤ index ∧ index < (counts.length : Int) then
        counts.set index.toNat (counts.getD index.toNat 0 + 1)
      else counts)
    []
  let totalVotes := votes.length
  (voteCounts, totalVotes)

/-! ## Concrete fixtures used by witnesses and counterexamples -/

/-- An active poll `"p1"` owned by `"alice"` with options `["A", "B"]`. -/
def pollP1 : Poll :=
  { id := "p1", title := "Pick one", options := ["A", "B"],
    created_by := "alice", is_active := true, created_at := 5 }

/-- A soft-deleted (inactive) poll `"p2"` owned by `"alice"`. -/
def pollP2Dead : Poll :=
  { id := "p2", title := "Old poll", options := ["A", "B"],
    created_by := "alice", is_active := false, created_at := 3 }

/-- A store holding just the active poll `"p1"` and no votes. -/
def dbOne : DB := { polls := [pollP1], votes := [] }

/-- A store holding `"p1"` and three votes at option indices 0, 0, 1. -/
def dbThreeVotes : DB :=
  { polls := [pollP1],
    votes := [{ id := "v1", poll_id := "p1", user_id := none, option_index := 0 },
              { id := "v2", poll_id := "p1", user_id := none, option_index := 0 },
              { id := "v3", poll_id := "p1", user_id := none, option_index := 1 }] }

/-- A store holding only the soft-deleted poll `"p2"`. -/
def dbDead : DB := { polls := [pollP2Dead], votes := [] }

/-- The empty store. -/
def dbEmpty : DB := { polls := [], votes := [] }

/-! ## Helper lemmas -/

theorem selectSingle_eq_some_iff {α : Type} (l : List α) (a : α) :
    selectSingle l = some a ↔ l = [a] := by
  match l with
  | [] => simp [selectSingle]
  | [b] => simp [selectSingle]
  | b :: c :: rest => simp [selectSingle]

theorem selectSingle_eq_none_iff {α : Type} (l : List α) :
    selectSingle l = none ↔ l = [] ∨ 2 ≤ l.length := by
  match l with
  | [] => simp [selectSingle]
  | [b] => simp [selectSingle]
  | b :: c :: rest => simp [selectSingle]

theorem jsSetDedup_length_le (seen : List String) (l : List String) :
    (jsSetDedup seen l).length ≤ l.length := by
  induction l generalizing seen with
  | nil => simp [jsSetDedup]
  | cons x xs ih =>
    rw [jsSetDedup]
    split
    · exact le_trans (ih seen) (Nat.le_succ _)
    · simpa using ih (x :: seen)

theorem jsSetDedup_length_eq_iff (seen : List String) (l : List String) :
    (jsSetDedup seen l).length = l.length ↔ l.Nodup ∧ ∀ x ∈ l, x ∉ seen := by
  induction l generalizing seen with
  | nil => simp [jsSetDedup]
  | cons x xs ih =>
    rw [jsSetDedup]
    by_cases hx : x ∈ seen
    · rw [if_pos hx]
      constructor
      · intro h
        have hle := jsSetDedup_length_le seen xs
        simp only [List.length_cons] at h
        omega
      · rintro ⟨-, h⟩
        exact absurd hx (h x (List.mem_cons_self _ _))
    · rw [if_neg hx]
      simp only [List.length_cons, add_left_inj, ih (x :: seen), List.nodup_cons,
        List.mem_cons, not_or]
      constructor
      · rintro ⟨hnd, hall⟩
        refine ⟨⟨fun hmem => (hall x hmem).1 rfl, hnd⟩, fun y hy => ?_⟩
        rcases hy with rfl | hy
        · exact hx
        · exact (hall y hy).2
      · rintro ⟨⟨h1, hnd⟩, hall⟩
        exact ⟨hnd, fun y hy => ⟨fun he => h1 (he ▸ hy), hall y (Or.inr hy)⟩⟩

theorem jsSetDedup_eq_self (l : List String) (seen : List String)
    (hnd : l.Nodup) (hs : ∀ x ∈ l, x ∉ seen) : jsSetDedup seen l = l := by
  induction l generalizing seen with
  | nil => rfl
  | cons x xs ih =>
    rw [jsSetDedup, if_neg (hs x (List.mem_cons_self _ _))]
    congr 1
    apply ih (x :: seen) (List.nodup_cons.mp hnd).2
    intro y hy
    rw [List.mem_cons]
    push_neg
    exact ⟨fun he => (List.nodup_cons.mp hnd).1 (he ▸ hy),
      hs y (List.mem_cons_of_mem _ hy)⟩

theorem validateOptions_eq_none_iff (l : List String) (i : Nat) :
    validateOptions l i = none ↔ ∀ o ∈ l, (jsTrim o).length ≠ 0 ∧ (jsTrim o).length ≤ 200 := by
  induction l generalizing i with
  | nil => simp [validateOptions]
  | cons o rest ih =>
    rw [validateOptions]
    by_cases h1 : (jsTrim o).length = 0
    · simp [h1]
    · rw [if_neg h1]
      by_cases h2 : (jsTrim o).length > 200
      · simp [if_pos h2, h1]
        omega
      · rw [if_neg h2]
        simp only [ih (i + 1), List.mem_cons]
        constructor
        · rintro h y (rfl | hy)
          · exact ⟨h1, by omega⟩
          · exact h y hy
        · intro h y hy
          exact h y (Or.inr hy)

theorem validatePollInput_eq_none_iff (q : String) (opts : List String) :
    validatePollInput q opts = none ↔
      (jsTrim q).length ≠ 0 ∧ q.length ≤ 500 ∧ 2 ≤ opts.length ∧ opts.length ≤ 10 ∧
      (∀ o ∈ opts, (jsTrim o).length ≠ 0 ∧ (jsTrim o).length ≤ 200) ∧
      (opts.map jsTrim).Nodup := by
  rw [validatePollInput]
  by_cases h1 : (jsTrim q).length = 0
  · simp [h1]
  · rw [if_neg h1]
    by_cases h2 : q.length > 500
    · simp [if_pos h2, h1]
      omega
    · rw [if_neg h2]
      by_cases h3 : opts.length < 2
      · simp [if_pos h3, h1]
        omega
      · rw [if_neg h3]
        by_cases h4 : opts.length > 10
        · simp [if_pos h4, h1]
          omega
        · rw [if_neg h4]
          rcases hvo : validateOptions opts 0 with _ | e
          · have hok := (validateOptions_eq_none_iff opts 0).mp hvo
            have hdl : (jsSetDedup [] (opts.map jsTrim)).length = opts.length ↔
                (opts.map jsTrim).Nodup := by
              conv_lhs => rw [show opts.length = (opts.map jsTrim).length by simp]
              rw [jsSetDedup_length_eq_iff]
              simp
            by_cases h5 : (jsSetDedup [] (opts.map jsTrim)).length ≠ opts.length
            · rw [if_pos h5]
              have hnot := (not_congr hdl).mp h5
              constructor
              · intro h
                exact Option.noConfusion h
              · rintro ⟨-, -, -, -, -, hnd⟩
                exact absurd hnd hnot
            · rw [if_neg h5]
              push_neg at h5
              exact ⟨fun _ => ⟨h1, by omega, by omega, by omega, hok, hdl.mp h5⟩,
                fun _ => rfl⟩
          · simp only [hvo]
            have : ¬∀ o ∈ opts, (jsTrim o).length ≠ 0 ∧ (jsTrim o).length ≤ 200 := by
              intro hall
              rw [(validateOptions_eq_none_iff opts 0).mpr hall] at hvo
              exact Option.noConfusion hvo
            simp [this]

theorem mem_insertByCreatedAtDesc (p q : Poll) (l : List Poll) :
    q ∈ insertByCreatedAtDesc p l ↔ q = p ∨ q ∈ l := by
  induction l with
  | nil => simp [insertByCreatedAtDesc]
  | cons r rest ih =>
    rw [insertByCreatedAtDesc]
    split
    · simp
    · simp only [List.mem_cons, ih]
      tauto

theorem mem_orderByCreatedAtDesc (q : Poll) (l : List Poll) :
    q ∈ orderByCreatedAtDesc l ↔ q ∈ l := by
  induction l with
  | nil => simp [orderByCreatedAtDesc]
  | cons r rest ih =>
    rw [orderByCreatedAtDesc, mem_insertByCreatedAtDesc]
    simp [ih]

theorem foldl_voteCounts_nil (l : List Vote) :
    l.foldl
      (fun (counts : List Nat) (vote : Vote) =>
        let index := vote.option_index
        if 0 ≤ index ∧ index < (counts.length : Int) then
          counts.set index.toNat (counts.getD index.toNat 0 + 1)
        else counts)
      [] = [] := by
  induction l with
  | nil => rfl
  | cons v rest ih =>
    rw [List.foldl_cons]
    simp only [List.length_nil, Nat.cast_zero]
    rw [if_neg (by omega)]
    exact ih

/-- Claim C1: the spec says `get_vote_counts` returns `counts[i]` = number of
stored votes with `option_index = i` — in particular counts `[2, 1]`, total 3
for stored votes at indices `[0, 0, 1]` — but the code's reduce starts from
the empty accumulator and only increments under
`index >= 0 && index < counts.length`, so the accumulator can never grow:
the returned counts list is `[]` for every store and every poll, while
`total` does count the rows.  On the spec's own input the code returns
`([], 3)`, not `([2, 1], 3)`. -/
theorem claim_C1_getVoteCounts_counts_always_empty :
    getVoteCounts dbThreeVotes "p1" = ([], 3) ∧
    ([] : List Nat) ≠ [2, 1] ∧
    ∀ (db : DB) (pollId : String), (getVoteCounts db pollId).1 = [] := by
  refine ⟨by decide, by decide, fun db pollId => ?_⟩
  rw [getVoteCounts]
  exact foldl_voteCounts_nil _

/-- Claim C2 counterexample: the claim says a non-owner's `updatePoll` fails
Unauthorized for all inputs, including ones that fail input validation; but
validation runs before the ownership check, so `"bob"` updating `"alice"`'s
poll `"p1"` with an empty question gets the validation error, not the
Unauthorized error. -/
theorem claim_C2_counterexample :
    (updatePoll dbOne (some "bob") "p1" "" ["A", "B"] none).1 =
      some "Question is required." ∧
    (updatePoll dbOne (some "bob") "p1" "" ["A", "B"] none).1 ≠
      some "Unauthorized: You can only update your own polls" := by
  decide

/-- Claim C2 (amended): for every existing active poll and present requester
identity different from the poll's `created_by`, `deletePoll` always fails
Unauthorized and changes nothing, and `updatePoll` fails Unauthorized for
every input that passes input validation; inputs that fail validation are
rejected with the validation error before the ownership check is reached. -/
theorem claim_C2_nonowner_unauthorized
    (db : DB) (uid : String) (pid : String) (poll : Poll)
    (hsel : db.polls.filter (fun p => p.id == pid && p.is_active) = [poll])
    (hown : poll.created_by ≠ uid) :
    deletePoll db (some uid) pid =
      (some "Unauthorized: You can only delete your own polls", db) ∧
    (∀ (question : String) (rawOptions : List String) (storeFail : Option String),
      validatePollInput question (rawOptions.filter (fun s => s ≠ "")) = none →
      updatePoll db (some uid) pid question rawOptions storeFail =
        (some "Unauthorized: You can only update your own polls", db)) ∧
    (∀ (question : String) (rawOptions : List String) (storeFail : Option String)
      (e : String),
      validatePollInput question (rawOptions.filter (fun s => s ≠ "")) = some e →
      updatePoll db (some uid) pid question rawOptions storeFail = (some e, db)) := by
  refine ⟨?_, ?_, ?_⟩
  · rw [deletePoll, hsel]
    simp [selectSingle, hown]
  · intro question rawOptions storeFail hvalid
    rw [updatePoll]
    simp only [hvalid, hsel]
    simp [selectSingle, hown]
  · intro question rawOptions storeFail e hvalid
    rw [updatePoll]
    simp only [hvalid]

/-- Claim C2 witness: `"bob"` against `"alice"`'s poll `"p1"`: delete fails
Unauthorized, update with valid input fails Unauthorized, update with an
empty question fails with the validation error. -/
theorem claim_C2_nonowner_unauthorized_witness :
    deletePoll dbOne (some "bob") "p1" =
      (some "Unauthorized: You can only delete your own polls", dbOne) ∧
    updatePoll dbOne (some "bob") "p1" "Q" ["A", "B"] none =
      (some "Unauthorized: You can only update your own polls", dbOne) ∧
    updatePoll dbOne (some "bob") "p1" "" ["A", "B"] none =
      (some "Question is required.", dbOne) :=
  have h := claim_C2_nonowner_unauthorized dbOne "bob" "p1" pollP1
    (by decide) (by decide)
  ⟨h.1, h.2.1 "Q" ["A", "B"] none (by decide),
    h.2.2 "" ["A", "B"] none "Question is required." (by decide)⟩

/-- Claim C3 counterexample: the claim says `getUserPolls` with the requester
identity absent returns the empty sequence and is not an error; the code does
return the empty sequence but pairs it with the error string
`"Not authenticated"`. -/
theorem claim_C3_counterexample :
    getUserPolls dbEmpty none = ([], some "Not authenticated") ∧
    (getUserPolls dbEmpty none).2 ≠ none := by
  decide

/-- Claim C3 (amended): `getUserPolls` with the requester identity absent
returns the empty sequence of polls, but together with the error
`"Not authenticated"` (it is reported as an error, not a silent success). -/
theorem claim_C3_absent_requester :
    ∀ (db : DB), getUserPolls db none = ([], some "Not authenticated") :=
  fun _ => rfl

/-- Claim C6: `createPoll` (and `updatePoll`, which runs the same validation
block) fails with a validation error exactly when the title is empty or
whitespace-only or longer than 500 characters, the option count is below 2 or
above 10, some option after trimming is empty or longer than 200 characters,
or the trimmed options contain duplicates; both functions surface that exact
validation error; and the two options `"A"` and `" A "` are rejected as
duplicates. -/
theorem claim_C6_validation_characterisation :
    (∀ (question : String) (options : List String),
      validatePollInput question options ≠ none ↔
        ((jsTrim question).length = 0 ∨ 500 < question.length ∨
         options.length < 2 ∨ 10 < options.length ∨
         (∃ o ∈ options, (jsTrim o).length = 0 ∨ 200 < (jsTrim o).length) ∨
         ¬(options.map jsTrim).Nodup)) ∧
    (∀ (db : DB) (user : Option String) (question : String)
      (rawOptions : List String) (freshId : String) (now : Nat) (pid : String)
      (storeFail : Option String) (e : String),
      validatePollInput question (rawOptions.filter (fun s => s ≠ "")) = some e →
      (createPoll db user question rawOptions freshId now).1 = some e ∧
      (updatePoll db user pid question rawOptions storeFail).1 = some e) ∧
    validatePollInput "Q" ["A", " A "] = some "Duplicate options are not allowed." := by
  refine ⟨?_, ?_, by decide⟩
  · intro question options
    constructor
    · intro hne
      by_contra hc
      push_neg at hc
      obtain ⟨h1, h2, h3, h4, h5, h6⟩ := hc
      exact hne ((validatePollInput_eq_none_iff question options).mpr
        ⟨h1, by omega, by omega, by omega, h5, h6⟩)
    · intro h hnone
      obtain ⟨g1, g2, g3, g4, g5, g6⟩ :=
        (validatePollInput_eq_none_iff question options).mp hnone
      rcases h with h | h | h | h | h | h
      · exact g1 h
      · omega
      · omega
      · omega
      · obtain ⟨o, ho, h⟩ := h
        have := g5 o ho
        omega
      · exact h g6
  · intro db user question rawOptions freshId now pid storeFail e hvalid
    constructor
    · simp only [createPoll, hvalid]
    · simp only [updatePoll, hvalid]

/-- Claim C6 witness: a single option `["A"]` is rejected by both `createPoll`
and `updatePoll` with the option-count error. -/
theorem claim_C6_validation_characterisation_witness :
    (createPoll dbEmpty (some "alice") "Q" ["A"] "p9" 0).1 =
      some "Please provide at least two options." ∧
    (updatePoll dbEmpty (some "alice") "p1" "Q" ["A"] none).1 =
      some "Please provide at least two options." :=
  claim_C6_validation_characterisation.2.1 dbEmpty (some "alice") "Q" ["A"]
    "p9" 0 "p1" none "Please provide at least two options." (by decide)

theorem filter_append_singleton_active (polls : List Poll) (q : Poll)
    (fid : String) (hfresh : ∀ p ∈ polls, p.id ≠ fid) (hq : q.id = fid)
    (hact : q.is_active = true) :
    (polls ++ [q]).filter (fun p => p.id == fid && p.is_active) = [q] := by
  rw [List.filter_append]
  have hnil : polls.filter (fun p => p.id == fid && p.is_active) = [] := by
    rw [List.filter_eq_nil_iff]
    intro p hp
    simp only [Bool.and_eq_true, beq_iff_eq, not_and]
    intro hid
    exact absurd hid (hfresh p hp)
  rw [hnil]
  simp [hq, hact]

/-- Claim C5: for every authenticated requester and every title/options input
that passes validation, `createPoll` succeeds, and `getPollById` on the fresh
id returns a poll whose options are the trimmed input options in original
order (validation guarantees they are duplicate-free, so deduplication keeps
them all), whose `created_by` is the requester, and whose `is_active` is
true. -/
theorem claim_C5_create_then_get
    (db : DB) (uid question : String) (rawOptions : List String)
    (freshId : String) (now : Nat)
    (hvalid : validatePollInput question (rawOptions.filter (fun s => s ≠ "")) = none)
    (hfresh : ∀ p ∈ db.polls, p.id ≠ freshId) :
    (createPoll db (some uid) question rawOptions freshId now).1 = none ∧
    getPollById (createPoll db (some uid) question rawOptions freshId now).2 freshId =
      (some { id := freshId, title := jsTrim question,
              options := (rawOptions.filter (fun s => s ≠ "")).map jsTrim,
              created_by := uid, is_active := true, created_at := now }, none) := by
  have hnodup : (((rawOptions.filter (fun s => s ≠ "")).map jsTrim)).Nodup :=
    ((validatePollInput_eq_none_iff question _).mp hvalid).2.2.2.2.2
  have hdedup : jsSetDedup [] ((rawOptions.filter (fun s => s ≠ "")).map jsTrim) =
      (rawOptions.filter (fun s => s ≠ "")).map jsTrim :=
    jsSetDedup_eq_self _ [] hnodup (by simp)
  have hcreate : createPoll db (some uid) question rawOptions freshId now =
      (none,
        { db with
            polls := db.polls ++
              [{ id := freshId, title := jsTrim question,
                 options := (rawOptions.filter (fun s => s ≠ "")).map jsTrim,
                 created_by := uid, is_active := true, created_at := now }] }) := by
    simp only [createPoll, hvalid, hdedup]
  refine ⟨by rw [hcreate], ?_⟩
  rw [hcreate]
  simp only [getPollById]
  rw [filter_append_singleton_active db.polls _ freshId hfresh rfl rfl]
  simp [selectSingle]

/-- Claim C5 witness: `"alice"` creates a poll with options `["A", " B "]`;
`getPollById` on the fresh id returns it with trimmed options `["A", "B"]`,
`created_by = "alice"` and `is_active = true`. -/
theorem claim_C5_create_then_get_witness :
    (createPoll dbEmpty (some "alice") "Pick one" ["A", " B "] "p7" 9).1 = none ∧
    getPollById (createPoll dbEmpty (some "alice") "Pick one" ["A", " B "] "p7" 9).2 "p7" =
      (some { id := "p7", title := "Pick one", options := ["A", "B"],
              created_by := "alice", is_active := true, created_at := 9 }, none) :=
  have h := claim_C5_create_then_get dbEmpty "alice" "Pick one" ["A", " B "]
    "p7" 9 (by decide) (by decide)
  ⟨h.1, h.2.trans (by decide)⟩

/-- Claim C4: starting from a store whose poll `pid` exists uniquely, with an
in-range option index and no stored vote for `(pid, uid)`: a first
authenticated `submitVote` succeeds, and a second sequential authenticated
`submitVote` for the same pair fails with the duplicate-vote error and leaves
the store unchanged; two sequential anonymous votes on the same poll both
succeed (no duplicate check is applied to them). -/
theorem claim_C4_duplicate_votes
    (db : DB) (uid pid : String) (poll : Poll) (idx : Int) (fid1 fid2 : String)
    (hsel : db.polls.filter (fun p => p.id == pid) = [poll])
    (hlo : 0 ≤ idx) (hhi : idx < (poll.options.length : Int))
    (hnovote : db.votes.filter
      (fun v => v.poll_id == pid && v.user_id == some uid) = []) :
    ((submitVote db (some uid) pid idx fid1).1 = none ∧
     (submitVote (submitVote db (some uid) pid idx fid1).2
        (some uid) pid idx fid2).1 = some "You have already voted on this poll" ∧
     (submitVote (submitVote db (some uid) pid idx fid1).2
        (some uid) pid idx fid2).2 = (submitVote db (some uid) pid idx fid1).2) ∧
    ((submitVote db none pid idx fid1).1 = none ∧
     (submitVote (submitVote db none pid idx fid1).2 none pid idx fid2).1 = none) := by
  have hcond : ¬(idx < 0 ∨ (poll.options.length : Int) ≤ idx) := by omega
  have hfirst : submitVote db (some uid) pid idx fid1 =
      (none,
        { db with votes := db.votes ++
            [{ id := fid1, poll_id := pid, user_id := some uid,
               option_index := idx }] }) := by
    simp only [submitVote, hsel, selectSingle]
    rw [if_neg hcond]
    simp only [hnovote, selectSingle]
  have hanon1 : submitVote db none pid idx fid1 =
      (none,
        { db with votes := db.votes ++
            [{ id := fid1, poll_id := pid, user_id := none,
               option_index := idx }] }) := by
    simp only [submitVote, hsel, selectSingle]
    rw [if_neg hcond]
  refine ⟨⟨by rw [hfirst], ?_, ?_⟩, by rw [hanon1], ?_⟩
  · rw [hfirst]
    simp only [submitVote, hsel, selectSingle]
    rw [if_neg hcond]
    rw [List.filter_append, hnovote]
    simp [selectSingle]
  · rw [hfirst]
    simp only [submitVote, hsel, selectSingle]
    rw [if_neg hcond]
    rw [List.filter_append, hnovote]
    simp [selectSingle]
  · rw [hanon1]
    simp only [submitVote, hsel, selectSingle]
    rw [if_neg hcond]

/-- Claim C4 witness: on the store with poll `"p1"` and no votes, user
`"u1"` votes once successfully, the second vote is rejected as duplicate and
changes nothing, and two anonymous votes both succeed. -/
theorem claim_C4_duplicate_votes_witness :
    ((submitVote dbOne (some "u1") "p1" 0 "v1").1 = none ∧
     (submitVote (submitVote dbOne (some "u1") "p1" 0 "v1").2
        (some "u1") "p1" 0 "v2").1 = some "You have already voted on this poll" ∧
     (submitVote (submitVote dbOne (some "u1") "p1" 0 "v1").2
        (some "u1") "p1" 0 "v2").2 = (submitVote dbOne (some "u1") "p1" 0 "v1").2) ∧
    ((submitVote dbOne none "p1" 0 "v1").1 = none ∧
     (submitVote (submitVote dbOne none "p1" 0 "v1").2 none "p1" 0 "v2").1 = none) :=
  claim_C4_duplicate_votes dbOne "u1" "p1" pollP1 0 "v1" "v2"
    (by decide) (by decide) (by decide) (by decide)

theorem selectSingle_singleton {α : Type} (a : α) : selectSingle [a] = some a := rfl

/-- Claim C9: for a store whose poll `pid` exists uniquely, `submitVote`
fails with the invalid-option error iff the option index is negative or at
least the number of options, and in that case the store is unchanged (no vote
row is inserted). -/
theorem claim_C9_option_index_validation
    (db : DB) (user : Option String) (pid : String) (poll : Poll) (idx : Int)
    (fid : String)
    (hsel : db.polls.filter (fun p => p.id == pid) = [poll]) :
    ((submitVote db user pid idx fid).1 = some "Invalid option selected" ↔
      (idx < 0 ∨ (poll.options.length : Int) ≤ idx)) ∧
    ((idx < 0 ∨ (poll.options.length : Int) ≤ idx) →
      (submitVote db user pid idx fid).2 = db) := by
  by_cases hc : idx < 0 ∨ (poll.options.length : Int) ≤ idx
  · have hres : submitVote db user pid idx fid = (some "Invalid option selected", db) := by
      simp only [submitVote, hsel, selectSingle]
      rw [if_pos hc]
    rw [hres]
    exact ⟨⟨fun _ => hc, fun _ => rfl⟩, fun _ => rfl⟩
  · have h1 : (submitVote db user pid idx fid).1 ≠ some "Invalid option selected" := by
      simp only [submitVote, hsel, selectSingle_singleton]
      rw [if_neg hc]
      rcases user with _ | uid
      · simp
      · rcases hv : selectSingle (db.votes.filter
            (fun v => v.poll_id == pid && v.user_id == some uid)) with _ | v
        · simp [hv]
        · simp [hv]
    exact ⟨⟨fun h => absurd h h1, fun h => absurd h hc⟩, fun h => absurd h hc⟩

/-- Claim C9 witness: on the two-option poll `"p1"`, index 2 and index -1
both fail with the invalid-option error and insert nothing. -/
theorem claim_C9_option_index_validation_witness :
    (submitVote dbOne (some "u1") "p1" 2 "v9").1 = some "Invalid option selected" ∧
    (submitVote dbOne (some "u1") "p1" 2 "v9").2 = dbOne ∧
    (submitVote dbOne (some "u1") "p1" (-1) "v9").1 = some "Invalid option selected" :=
  have h := claim_C9_option_index_validation dbOne (some "u1") "p1" pollP1 2 "v9"
    (by decide)
  have h2 := claim_C9_option_index_validation dbOne (some "u1") "p1" pollP1 (-1) "v9"
    (by decide)
  ⟨h.1.mpr (by decide), h.2 (by decide), h2.1.mpr (by decide)⟩

theorem filter_id_length_le_one (l : List Poll) (pid : String)
    (h : (l.map Poll.id).Nodup) :
    (l.filter (fun p => p.id == pid)).length ≤ 1 := by
  induction l with
  | nil => simp
  | cons p rest ih =>
    rw [List.map_cons, List.nodup_cons] at h
    rw [List.filter_cons]
    by_cases hp : p.id = pid
    · rw [if_pos (by simp [hp])]
      have hrest : rest.filter (fun q => q.id == pid) = [] := by
        rw [List.filter_eq_nil_iff]
        intro q hq
        simp only [beq_iff_eq]
        intro he
        apply h.1
        rw [hp, ← he]
        exact List.mem_map_of_mem Poll.id hq
      simp [hrest]
    · rw [if_neg (by simp [hp])]
      exact ih h.2

/-- Claim C8: `submitVote` fails with the poll-not-found error exactly when
no poll row with the given id exists at all (active or inactive), and for an
existing but soft-deleted poll with an in-range option index the vote is
accepted — the active flag is not rechecked. -/
theorem claim_C8_notfound_iff_and_inactive_accepts :
    (∀ (db : DB) (user : Option String) (pid : String) (idx : Int) (fid : String),
      (db.polls.map Poll.id).Nodup →
      ((submitVote db user pid idx fid).1 = some "Poll not found" ↔
        ∀ p ∈ db.polls, p.id ≠ pid)) ∧
    (∀ (db : DB) (user : Option String) (pid : String) (poll : Poll) (idx : Int)
      (fid : String),
      db.polls.filter (fun p => p.id == pid) = [poll] →
      poll.is_active = false →
      0 ≤ idx → idx < (poll.options.length : Int) →
      (∀ uid, user = some uid →
        db.votes.filter (fun v => v.poll_id == pid && v.user_id == some uid) = []) →
      submitVote db user pid idx fid =
        (none, { db with votes := db.votes ++
          [{ id := fid, poll_id := pid, user_id := user, option_index := idx }] })) := by
  constructor
  · intro db user pid idx fid hids
    rcases hss : selectSingle (db.polls.filter (fun p => p.id == pid)) with _ | poll
    · have hnil : db.polls.filter (fun p => p.id == pid) = [] := by
        rcases (selectSingle_eq_none_iff _).mp hss with h | h
        · exact h
        · have := filter_id_length_le_one db.polls pid hids
          omega
      have hrhs : ∀ p ∈ db.polls, p.id ≠ pid := by
        intro p hp
        have := (List.filter_eq_nil_iff.mp hnil) p hp
        simpa using this
      simp only [submitVote, hss]
      simp
      exact hrhs
    · have hl := (selectSingle_eq_some_iff _ _).mp hss
      have hmem : poll ∈ db.polls ∧ poll.id = pid := by
        have hin : poll ∈ db.polls.filter (fun p => p.id == pid) := by
          rw [hl]
          exact List.mem_cons_self _ _
        have h2 := List.mem_filter.mp hin
        exact ⟨h2.1, by simpa using h2.2⟩
      have hrhs : ¬(∀ p ∈ db.polls, p.id ≠ pid) := fun hall => hall poll hmem.1 hmem.2
      have hlhs : (submitVote db user pid idx fid).1 ≠ some "Poll not found" := by
        simp only [submitVote, hss]
        by_cases hc : idx < 0 ∨ (poll.options.length : Int) ≤ idx
        · rw [if_pos hc]
          simp
        · rw [if_neg hc]
          rcases user with _ | uid
          · simp
          · rcases hv : selectSingle (db.votes.filter
                (fun v => v.poll_id == pid && v.user_id == some uid)) with _ | v
            · simp [hv]
            · simp [hv]

      exact ⟨fun h => absurd h hlhs, fun h => absurd h hrhs⟩
  · intro db user pid poll idx fid hsel hinact hlo hhi hdup
    have hcond : ¬(idx < 0 ∨ (poll.options.length : Int) ≤ idx) := by omega
    rcases user with _ | uid
    · simp only [submitVote, hsel, selectSingle]
      rw [if_neg hcond]
    · simp only [submitVote, hsel, selectSingle]
      rw [if_neg hcond]
      simp only [hdup uid rfl, selectSingle]

/-- Claim C8 witness: in a store holding only the soft-deleted poll `"p2"`,
voting on the nonexistent `"zzz"` fails with the poll-not-found error, while
an anonymous vote on the inactive `"p2"` at index 0 is accepted and
inserted. -/
theorem claim_C8_notfound_iff_and_inactive_accepts_witness :
    (submitVote dbDead none "zzz" 0 "v9").1 = some "Poll not found" ∧
    submitVote dbDead none "p2" 0 "v9" =
      (none, { dbDead with votes := dbDead.votes ++
        [{ id := "v9", poll_id := "p2", user_id := none, option_index := 0 }] }) :=
  ⟨(claim_C8_notfound_iff_and_inactive_accepts.1 dbDead none "zzz" 0 "v9"
      (by decide)).mpr (by decide),
   claim_C8_notfound_iff_and_inactive_accepts.2 dbDead none "p2" pollP2Dead 0 "v9"
      (by decide) (by decide) (by decide) (by decide)
      (fun uid h => Option.noConfusion h)⟩

/-- Claim C7: for the unique active poll row `pid` owned by the authenticated
requester, `deletePoll` succeeds, leaves the votes table untouched (so
`getVoteCounts` answers exactly as before), only flips `is_active` on the
matching poll row, and makes the poll invisible to `getPollById` and to
`getUserPolls`. -/
theorem claim_C7_soft_delete
    (db : DB) (uid pid : String) (poll : Poll)
    (hsel : db.polls.filter (fun p => p.id == pid && p.is_active) = [poll])
    (hown : poll.created_by = uid) :
    (deletePoll db (some uid) pid).1 = none ∧
    (deletePoll db (some uid) pid).2.votes = db.votes ∧
    (deletePoll db (some uid) pid).2.polls =
      db.polls.map (fun p =>
        if p.id == pid && p.created_by == uid then { p with is_active := false }
        else p) ∧
    getVoteCounts (deletePoll db (some uid) pid).2 pid = getVoteCounts db pid ∧
    getPollById (deletePoll db (some uid) pid).2 pid = (none, some "Row not found") ∧
    (∀ q ∈ (getUserPolls (deletePoll db (some uid) pid).2 (some uid)).1,
      q.id ≠ pid) := by
  have hdel : deletePoll db (some uid) pid =
      (none,
        { db with polls := db.polls.map (fun p =>
            if p.id == pid && p.created_by == uid then { p with is_active := false }
            else p) }) := by
    simp only [deletePoll, hsel, selectSingle_singleton]
    rw [if_neg (by simp [hown])]
  have hpollmem : poll ∈ db.polls ∧ poll.id = pid ∧ poll.is_active = true := by
    have hin : poll ∈ db.polls.filter (fun p => p.id == pid && p.is_active) := by
      rw [hsel]
      exact List.mem_cons_self _ _
    have h2 := List.mem_filter.mp hin
    have h3 := h2.2
    simp only [Bool.and_eq_true, beq_iff_eq] at h3
    exact ⟨h2.1, h3.1, h3.2⟩
  have huniq : ∀ p ∈ db.polls, (p.id == pid && p.is_active) = true → p = poll := by
    intro p hp hcond
    have hin : p ∈ db.polls.filter (fun p => p.id == pid && p.is_active) :=
      List.mem_filter.mpr ⟨hp, hcond⟩
    rw [hsel] at hin
    simpa using hin
  rw [hdel]
  refine ⟨rfl, rfl, rfl, rfl, ?_, ?_⟩
  · simp only [getPollById]
    have hfilnil :
        ((db.polls.map (fun p =>
          if p.id == pid && p.created_by == uid then { p with is_active := false }
          else p)).filter (fun p => p.id == pid && p.is_active)) = [] := by
      rw [List.filter_eq_nil_iff]
      intro q hq
      obtain ⟨p, hp, hform⟩ := List.mem_map.mp hq
      by_cases hcase : (p.id == pid && p.created_by == uid) = true
      · rw [if_pos hcase] at hform
        rw [← hform]
        simp
      · rw [if_neg hcase] at hform
        rw [← hform]
        intro hcond
        apply hcase
        have hpq := huniq p hp hcond
        rw [hpq]
        simp [hpollmem.2.1, hown]
    rw [hfilnil]
    rfl
  · intro q hq
    simp only [getUserPolls] at hq
    rw [mem_orderByCreatedAtDesc] at hq
    have hq2 := List.mem_filter.mp hq
    obtain ⟨p, hp, hform⟩ := List.mem_map.mp hq2.1
    intro hqid
    by_cases hcase : (p.id == pid && p.created_by == uid) = true
    · rw [if_pos hcase] at hform
      have hact := hq2.2
      rw [← hform] at hact
      simp at hact
    · rw [if_neg hcase] at hform
      apply hcase
      subst hform
      have hacts := hq2.2
      simp only [Bool.and_eq_true, beq_iff_eq] at hacts
      have hcond : (p.id == pid && p.is_active) = true := by
        simp only [Bool.and_eq_true, beq_iff_eq]
        exact ⟨hqid, hacts.2⟩
      have hpq := huniq p hp hcond
      rw [hpq]
      simp [hpollmem.2.1, hown]

/-- Claim C7 witness: `"alice"` soft-deletes `"p1"` in the store with three
votes; the call succeeds, the votes are untouched, `getVoteCounts` is
unchanged and `getPollById` no longer finds the poll. -/
theorem claim_C7_soft_delete_witness :
    (deletePoll dbThreeVotes (some "alice") "p1").1 = none ∧
    (deletePoll dbThreeVotes (some "alice") "p1").2.votes = dbThreeVotes.votes ∧
    getVoteCounts (deletePoll dbThreeVotes (some "alice") "p1").2 "p1" =
      getVoteCounts dbThreeVotes "p1" ∧
    getPollById (deletePoll dbThreeVotes (some "alice") "p1").2 "p1" =
      (none, some "Row not found") :=
  have h := claim_C7_soft_delete dbThreeVotes "alice" "p1" pollP1
    (by decide) (by decide)
  ⟨h.1, h.2.1, h.2.2.2.1, h.2.2.2.2.1⟩

/-- Claim C10: once validation and the ownership check pass, the first copy
of `updatePoll` returns no error even when the store update call reports an
error (the bound error is never inspected), while the second copy propagates
the store error message. -/
theorem claim_C10_update_error_swallowed
    (db : DB) (uid pid question : String) (rawOptions : List String)
    (poll : Poll) (e : String)
    (hvalid : validatePollInput question (rawOptions.filter (fun s => s ≠ "")) = none)
    (hsel : db.polls.filter (fun p => p.id == pid && p.is_active) = [poll])
    (hown : poll.created_by = uid) :
    updatePoll db (some uid) pid question rawOptions (some e) = (none, db) ∧
    updatePoll_v2 db (some uid) pid question rawOptions (some e) = (some e, db) := by
  constructor
  · simp only [updatePoll, hvalid, hsel, selectSingle_singleton]
    rw [if_neg (by simp [hown])]
  · simp only [updatePoll_v2, hvalid, hsel, selectSingle_singleton]
    rw [if_neg (by simp [hown])]

/-- Claim C10 witness: `"alice"` updates her poll `"p1"` with valid input
while the store update reports `"boom"`: the first copy still returns no
error, the second copy returns `"boom"`. -/
theorem claim_C10_update_error_swallowed_witness :
    updatePoll dbOne (some "alice") "p1" "New question" ["A", "B"] (some "boom") =
      (none, dbOne) ∧
    updatePoll_v2 dbOne (some "alice") "p1" "New question" ["A", "B"] (some "boom") =
      (some "boom", dbOne) :=
  claim_C10_update_error_swallowed dbOne "alice" "p1" "New question" ["A", "B"]
    pollP1 "boom" (by decide) (by decide) (by decide)
